import Mathlib

/-!
# fLOKr reservation / inventory conservation engine — verification

Shallow embedding of the stock-mutating operations of the fLOKr backend:

* `inventory/transfer_service.py` (`InventoryTransferService`)
* `reservations/serializers.py` (`ReservationCreateSerializer`)
* `reservations/views.py` (`ReservationViewSet` actions)
* `reservations/late_return_service.py` (`LateReturnService`)
* `reservations/tasks.py` (scheduled jobs)

Machine integers are modelled as `Int` (Django `IntegerField` is arbitrary-
precision as far as the Python code is concerned; no wraparound occurs in the
source).  Dates and datetimes are modelled as an abstract integer timeline
where adding `d` days is `+ d`.  Notifications are modelled as a list of
emitted events; the notification gateway itself is out of scope.
-/

namespace Flokr

/-- User roles (`users/models.py`, `User.Role`). -/
inductive Role
  | newcomer
  | community_member
  | steward
  | admin
  | partner
deriving Repr, DecidableEq

/-- Borrower state relevant to the engine (`users/models.py`, fields
`role`, `late_return_count`, `borrowing_restricted_until`). -/
structure User where
  id : Nat
  role : Role
  late_return_count : Int
  borrowing_restricted_until : Option Int
deriving Repr, DecidableEq

/-- Stock-relevant fields of `inventory/models.py` `InventoryItem`.
`hub`, `name`, `category` form the heuristic merge key used by
`complete_transfer` at the destination hub. -/
structure InventoryItem where
  hub : Nat
  name : String
  category : String
  quantity_total : Int
  quantity_available : Int
deriving Repr, DecidableEq

/-- Reservation statuses (`reservations/models.py`, `Reservation.Status`). -/
inductive RStatus
  | pending
  | confirmed
  | picked_up
  | returned
  | cancelled
  | overdue
deriving Repr, DecidableEq

/-- The fields of `reservations/models.py` `Reservation` that the engine
reads or writes. -/
structure Reservation where
  user : Nat
  hub : Nat
  quantity : Int
  status : RStatus
  pickup_date : Int
  expected_return_date : Int
  actual_return_date : Option Int
  extension_requested : Bool
  extension_approved : Bool
deriving Repr, DecidableEq

/-- Transfer statuses (`inventory/models.py`, `InventoryTransfer.Status`). -/
inductive TStatus
  | pending
  | in_transit
  | completed
  | cancelled
deriving Repr, DecidableEq

/-- The fields of `inventory/models.py` `InventoryTransfer` that the
transfer service reads or writes. -/
structure Transfer where
  from_hub : Nat
  to_hub : Nat
  quantity : Int
  status : TStatus
deriving Repr, DecidableEq

/-- Notification events emitted by the engine (calls to
`send_notification` / `notification_service.create_notification`),
modelled as data. -/
inductive Notif
  | lateReturn (userId : Nat) (daysLate count : Int)
  | restrictionWarning (userId : Nat)
  | borrowingRestricted (userId : Nat) (restrictionEnd : Int)
  | reservationExpired (userId : Nat)
deriving Repr, DecidableEq

/-- Invariant I1 of the spec: `0 ≤ quantity_available ≤ quantity_total`. -/
def I1 (i : InventoryItem) : Prop :=
  0 ≤ i.quantity_available ∧ i.quantity_available ≤ i.quantity_total

instance (i : InventoryItem) : Decidable (I1 i) := by
  unfold I1; infer_instance

/-! ## LateReturnService (`reservations/late_return_service.py`) -/

/-- `LateReturnService.LATE_RETURN_THRESHOLD`. -/
def LATE_RETURN_THRESHOLD : Int := 3

/-- `LateReturnService.RESTRICTION_DAYS`. -/
def RESTRICTION_DAYS : Int := 30

/-- `LateReturnService.WARNING_THRESHOLD`. -/
def WARNING_THRESHOLD : Int := 2

/-- Result of `apply_late_return_penalty`: the updated user and the
notifications sent. -/
structure PenaltyResult where
  user : User
  notifs : List Notif
deriving Repr, DecidableEq

/-- `LateReturnService.apply_late_return_penalty(user, reservation)`:
increments `late_return_count`; at count `== WARNING_THRESHOLD` sends a
warning; at count `≥ LATE_RETURN_THRESHOLD` sets
`borrowing_restricted_until = now + RESTRICTION_DAYS` and notifies,
otherwise sends a plain late notice. -/
def apply_late_return_penalty (now : Int) (u : User) (r : Reservation) :
    PenaltyResult :=
  let daysLate := r.actual_return_date.getD 0 - r.expected_return_date
  let u1 : User := { u with late_return_count := u.late_return_count + 1 }
  let warn : List Notif :=
    if u1.late_return_count = WARNING_THRESHOLD then
      [Notif.restrictionWarning u.id]
    else []
  if u1.late_return_count ≥ LATE_RETURN_THRESHOLD then
    let restrictionEnd := now + RESTRICTION_DAYS
    { user := { u1 with borrowing_restricted_until := some restrictionEnd },
      notifs := warn ++ [Notif.borrowingRestricted u.id restrictionEnd] }
  else
    { user := u1,
      notifs := warn ++ [Notif.lateReturn u.id daysLate u1.late_return_count] }

/-! ## Reservation creation (`reservations/serializers.py`,
`ReservationCreateSerializer`) -/

/-- The caller-supplied fields of a reservation creation request. -/
structure CreateInput where
  hub : Nat
  quantity : Int
  pickup_date : Int
  expected_return_date : Int
deriving Repr, DecidableEq

/-- Validation errors raised by `ReservationCreateSerializer.validate`. -/
inductive CreateError
  | restricted (restrictionEnd : Int)
  | insufficientStock (available : Int)
  | pickupInPast
  | returnNotAfterPickup
deriving Repr, DecidableEq

/-- Whether a `CreateError` is the borrowing-restriction error. -/
def CreateError.isRestriction : CreateError → Bool
  | .restricted _ => true
  | _ => false

/-- The truthiness-and-comparison check
`user.borrowing_restricted_until and user.borrowing_restricted_until > timezone.now()`. -/
def isRestricted (now : Int) (u : User) : Bool :=
  match u.borrowing_restricted_until with
  | some t => decide (t > now)
  | none => false

/-- `ReservationCreateSerializer.validate`: restriction gate, then stock
check, then the two date checks, in source order. -/
def reservationValidate (now today : Int) (u : User) (item : InventoryItem)
    (inp : CreateInput) : Option CreateError :=
  if isRestricted now u then
    some (.restricted (u.borrowing_restricted_until.getD 0))
  else if inp.quantity > item.quantity_available then
    some (.insufficientStock item.quantity_available)
  else if inp.pickup_date < today then
    some .pickupInPast
  else if inp.expected_return_date ≤ inp.pickup_date then
    some .returnNotAfterPickup
  else
    none

/-- `ReservationCreateSerializer.create` preceded by `validate`.  On
validation failure the error is surfaced and the item is untouched; on
success the reservation is created with status `confirmed` and
`quantity_available` is decremented by the requested quantity. -/
def reservationCreate (now today : Int) (u : User) (item : InventoryItem)
    (inp : CreateInput) : Except CreateError Reservation × InventoryItem :=
  match reservationValidate now today u item inp with
  | some e => (.error e, item)
  | none =>
      (.ok { user := u.id
             hub := inp.hub
             quantity := inp.quantity
             status := .confirmed
             pickup_date := inp.pickup_date
             expected_return_date := inp.expected_return_date
             actual_return_date := none
             extension_requested := false
             extension_approved := false },
       { item with quantity_available := item.quantity_available - inp.quantity })

/-! ## Reservation lifecycle actions (`reservations/views.py`,
`ReservationViewSet`) -/

/-- `ReservationViewSet.pickup`: only `confirmed` reservations can be
picked up; no stock change. -/
def pickupRes (r : Reservation) : Except String Reservation :=
  if r.status ≠ .confirmed then
    .error "Only confirmed reservations can be picked up"
  else
    .ok { r with status := .picked_up }

/-- Result of `ReservationViewSet.return_item`. -/
structure ReturnResult where
  reservation : Reservation
  item : InventoryItem
  user : User
  notifs : List Notif
deriving Repr, DecidableEq

/-- `ReservationViewSet.return_item`: only `picked_up` items can be
returned; sets `actual_return_date = today`, adds the reservation's
quantity back to `quantity_available` (no cap), then applies the late
return penalty when `actual_return_date > expected_return_date`.
(The reputation award on the on-time path calls an external collaborator
and mutates none of the modelled state.) -/
def return_item (now today : Int) (r : Reservation) (item : InventoryItem)
    (u : User) : Except String ReturnResult :=
  if r.status ≠ .picked_up then
    .error "Only picked up items can be returned"
  else
    let r1 : Reservation := { r with status := .returned, actual_return_date := some today }
    let item1 : InventoryItem :=
      { item with quantity_available := item.quantity_available + r.quantity }
    if today > r1.expected_return_date then
      let p := apply_late_return_penalty now u r1
      .ok { reservation := r1, item := item1, user := p.user, notifs := p.notifs }
    else
      .ok { reservation := r1, item := item1, user := u, notifs := [] }

/-- `ReservationViewSet.cancel`: only the reserving user or a
steward/admin; only `pending`/`confirmed` reservations; sets status
`cancelled` and adds the quantity back to `quantity_available` (no cap). -/
def cancelRes (caller : User) (r : Reservation) (item : InventoryItem) :
    Except String (Reservation × InventoryItem) :=
  if r.user ≠ caller.id ∧ caller.role ≠ .steward ∧ caller.role ≠ .admin then
    .error "Permission denied"
  else if r.status ≠ .pending ∧ r.status ≠ .confirmed then
    .error "Only pending or confirmed reservations can be cancelled"
  else
    .ok ({ r with status := .cancelled },
         { item with quantity_available := item.quantity_available + r.quantity })

/-- Which callers `ReservationViewSet.get_queryset` exposes a reservation
to: admins see all, stewards see their hubs' reservations, everyone else
sees only their own.  `stewardHubs` is the set of hubs the caller stewards
(the `hub__stewards` relation). -/
def canAccessReservation (caller : User) (stewardHubs : List Nat)
    (r : Reservation) : Bool :=
  match caller.role with
  | .admin => true
  | .steward => r.hub ∈ stewardHubs
  | _ => caller.id == r.user

/-- `ReservationViewSet.approve_extension`: 404 when the reservation is
outside the caller's queryset; rejects when no extension was requested or
no `new_return_date` is supplied; otherwise sets
`extension_approved = true` and overwrites `expected_return_date` with the
supplied date.  No role check, no status precondition, and no comparison
of the new date against the old one. -/
def approve_extension (caller : User) (stewardHubs : List Nat)
    (r : Reservation) (new_return_date : Option Int) :
    Except String Reservation :=
  if canAccessReservation caller stewardHubs r = false then
    .error "Not found"
  else if r.extension_requested = false then
    .error "No extension request found"
  else
    match new_return_date with
    | none => .error "new_return_date is required"
    | some d => .ok { r with extension_approved := true, expected_return_date := d }

/-! ## Scheduled jobs (`reservations/tasks.py`) -/

/-- Per-reservation outcome of one run of `expire_pending_reservations`. -/
structure ExpireResult where
  reservation : Reservation
  item : InventoryItem
  notifs : List Notif
deriving Repr, DecidableEq

/-- One run of `expire_pending_reservations` as seen by a single
reservation and its item: the queryset selects
`status = PENDING ∧ pickup_date < today`; each selected unit gets
`quantity_available += quantity`, status `CANCELLED`, and an expiration
notification; everything else is untouched. -/
def expireStep (today : Int) (r : Reservation) (item : InventoryItem) :
    ExpireResult :=
  if r.status = .pending ∧ r.pickup_date < today then
    { reservation := { r with status := .cancelled }
      item := { item with quantity_available := item.quantity_available + r.quantity }
      notifs := [Notif.reservationExpired r.user] }
  else
    { reservation := r, item := item, notifs := [] }

/-- The queryset filter of `send_overdue_reminders`:
`(status = PICKED_UP ∨ status = OVERDUE) ∧ expected_return_date < today ∧ actual_return_date IS NULL`. -/
def overdueCandidate (today : Int) (r : Reservation) : Bool :=
  (r.status == .picked_up || r.status == .overdue)
    && decide (r.expected_return_date < today)
    && r.actual_return_date == none

/-- The escalation schedule of `send_overdue_reminders`:
`days_overdue == 1 or days_overdue == 3 or days_overdue == 7 or days_overdue % 7 == 0`. -/
def shouldSendReminder (days_overdue : Int) : Bool :=
  days_overdue == 1 || days_overdue == 3 || days_overdue == 7
    || days_overdue % 7 == 0

/-- Per-reservation outcome of one run of `send_overdue_reminders`. -/
structure OverdueStepResult where
  reservation : Reservation
  item : InventoryItem
  statusUpdated : Bool
  userReminder : Bool
  stewardAlert : Bool
deriving Repr, DecidableEq

/-- One run of `send_overdue_reminders` as seen by a single reservation
and its item: candidates get status `OVERDUE` if not already there
(`statusUpdated` records whether a transition happened); a user reminder
fires per `shouldSendReminder`, and stewards are additionally alerted
when a reminder fires and `days_overdue ≥ 3`.  The loop body never reads
or writes the inventory item, so it is passed through unchanged. -/
def overdueStep (today : Int) (r : Reservation) (item : InventoryItem) :
    OverdueStepResult :=
  if overdueCandidate today r then
    let days_overdue := today - r.expected_return_date
    let transition := r.status ≠ .overdue
    let r1 : Reservation :=
      if r.status ≠ .overdue then { r with status := .overdue } else r
    let send := shouldSendReminder days_overdue
    { reservation := r1
      item := item
      statusUpdated := decide transition
      userReminder := send
      stewardAlert := send && decide (days_overdue ≥ 3) }
  else
    { reservation := r, item := item,
      statusUpdated := false, userReminder := false, stewardAlert := false }

/-! ## Transfers (`inventory/transfer_service.py`,
`InventoryTransferService`) -/

/-- `InventoryTransferService.initiate_transfer`: validates item
ownership, distinct hubs, positive quantity and sufficient availability;
on success creates a `pending` transfer and decrements
`quantity_available` at the source (total unchanged). -/
def initiate_transfer (item : InventoryItem) (from_hub to_hub : Nat)
    (quantity : Int) : Except String (Transfer × InventoryItem) :=
  if item.hub ≠ from_hub then
    .error "Item does not belong to the source hub"
  else if from_hub = to_hub then
    .error "Cannot transfer to the same hub"
  else if quantity ≤ 0 then
    .error "Quantity must be positive"
  else if quantity > item.quantity_available then
    .error "Only N items available for transfer"
  else
    .ok ({ from_hub := from_hub, to_hub := to_hub,
           quantity := quantity, status := .pending },
         { item with quantity_available := item.quantity_available - quantity })

/-- `InventoryTransferService.approve_transfer`: `pending → in_transit`,
no stock change. -/
def approve_transfer (t : Transfer) : Except String Transfer :=
  if t.status ≠ .pending then
    .error "Cannot approve transfer with this status"
  else
    .ok { t with status := .in_transit }

/-- `InventoryTransferService.complete_transfer`: `in_transit →
completed`.  Decrements the source item's `quantity_total` by the
transfer quantity (its `quantity_available` was already reduced at
initiation); `dest` is the result of the destination-hub lookup by
`(hub, name, category)` — when present its totals both grow by the
quantity, otherwise a fresh item is created with
`quantity_total = quantity_available = quantity`. -/
def complete_transfer (t : Transfer) (item : InventoryItem)
    (dest : Option InventoryItem) :
    Except String (Transfer × InventoryItem × InventoryItem) :=
  if t.status ≠ .in_transit then
    .error "Cannot complete transfer with this status"
  else
    let item1 : InventoryItem :=
      { item with quantity_total := item.quantity_total - t.quantity }
    let destItem : InventoryItem :=
      match dest with
      | some d =>
          { d with quantity_total := d.quantity_total + t.quantity,
                   quantity_available := d.quantity_available + t.quantity }
      | none =>
          { hub := t.to_hub, name := item.name, category := item.category,
            quantity_total := t.quantity, quantity_available := t.quantity }
    .ok ({ t with status := .completed }, item1, destItem)

/-- `InventoryTransferService.cancel_transfer`: rejected on `completed`
or already-`cancelled` transfers; otherwise adds the held quantity back
to the source item's `quantity_available` (no cap) and marks the transfer
`cancelled`. -/
def cancel_transfer (t : Transfer) (item : InventoryItem) :
    Except String (Transfer × InventoryItem) :=
  if t.status = .completed then
    .error "Cannot cancel completed transfer"
  else if t.status = .cancelled then
    .error "Transfer already cancelled"
  else
    .ok ({ t with status := .cancelled },
         { item with quantity_available := item.quantity_available + t.quantity })

/-- `quantity_total` of an optional destination item, counting a
not-yet-existing item as 0. -/
def destTotal : Option InventoryItem → Int
  | some d => d.quantity_total
  | none => 0

/-! ## Sample values for concrete instantiations -/

/-- A sample inventory item: 5 total, 5 available, at hub 1. -/
def itemA : InventoryItem := ⟨1, "drill", "tools", 5, 5⟩

/-- A sample unrestricted user. -/
def uNew : User := ⟨7, .newcomer, 0, none⟩

/-- A sample picked-up reservation of 2 units, due back on day 5. -/
def rPicked : Reservation := ⟨7, 1, 2, .picked_up, 0, 5, none, false, false⟩

/-- A sample reservation already in `overdue`, due back on day 0. -/
def rOverdue : Reservation := ⟨7, 1, 2, .overdue, 0, 0, none, false, false⟩

/-! ## Helper lemmas -/

/-- The restriction check of `ReservationCreateSerializer.validate` is
true exactly when `borrowing_restricted_until` is non-null and strictly in
the future. -/
theorem isRestricted_iff (now : Int) (u : User) :
    isRestricted now u = true ↔
      ∃ t, u.borrowing_restricted_until = some t ∧ now < t := by
  unfold isRestricted
  cases h : u.borrowing_restricted_until with
  | none => simp [h]
  | some t => simp [h, gt_iff_lt]

/-- The escalation schedule fires exactly at 1, 3, 7 days overdue and at
every positive multiple of 7 (for positive overdue counts). -/
theorem shouldSendReminder_iff (n : Int) (hn : 1 ≤ n) :
    shouldSendReminder n = true ↔
      (n = 1 ∨ n = 3 ∨ n = 7 ∨ (0 < n ∧ 7 ∣ n)) := by
  unfold shouldSendReminder
  simp only [Bool.or_eq_true, beq_iff_eq]
  omega

/-- A validation error with the restriction flag can only arise from the
restriction gate. -/
theorem validate_isRestriction (now today : Int) (u : User) (i : InventoryItem)
    (inp : CreateInput) (e : CreateError)
    (h : reservationValidate now today u i inp = some e)
    (hres : e.isRestriction = true) : isRestricted now u = true := by
  unfold reservationValidate at h
  split at h
  · next hcond => exact hcond
  · split at h
    · cases h; exact absurd hres (by simp [CreateError.isRestriction])
    · split at h
      · cases h; exact absurd hres (by simp [CreateError.isRestriction])
      · split at h
        · cases h; exact absurd hres (by simp [CreateError.isRestriction])
        · cases h

/-- A restricted user always trips the restriction gate first. -/
theorem validate_restricted (now today : Int) (u : User) (i : InventoryItem)
    (inp : CreateInput) (hR : isRestricted now u = true) :
    reservationValidate now today u i inp
      = some (.restricted (u.borrowing_restricted_until.getD 0)) := by
  unfold reservationValidate
  rw [if_pos hR]

/-- `reservationCreate` surfaces exactly the errors of
`reservationValidate`. -/
theorem reservationCreate_fst_error (now today : Int) (u : User)
    (i : InventoryItem) (inp : CreateInput) (e : CreateError) :
    (reservationCreate now today u i inp).1 = .error e ↔
      reservationValidate now today u i inp = some e := by
  unfold reservationCreate
  cases hv : reservationValidate now today u i inp <;> simp [hv]

/-! ## Claims -/

/-- C5: the late return penalty applied when `late_return_count` reaches
exactly 3 sets `borrowing_restricted_until` to `now + 30` days; a penalty
application that leaves the count below 3 does not set
`borrowing_restricted_until`; and at count exactly 2 a warning
notification is sent. -/
theorem late_return_threshold (now : Int) (u : User) (r : Reservation) :
    (u.late_return_count + 1 = 3 →
      (apply_late_return_penalty now u r).user.borrowing_restricted_until
        = some (now + 30)) ∧
    (u.late_return_count + 1 < 3 →
      (apply_late_return_penalty now u r).user.borrowing_restricted_until
        = u.borrowing_restricted_until) ∧
    (u.late_return_count + 1 = 2 →
      Notif.restrictionWarning u.id ∈ (apply_late_return_penalty now u r).notifs) := by
  unfold apply_late_return_penalty
  simp only [LATE_RETURN_THRESHOLD, WARNING_THRESHOLD, RESTRICTION_DAYS]
  refine ⟨?_, ?_, ?_⟩ <;> intro h
  · rw [if_pos (by omega)]
  · rw [if_neg (by omega)]
  · rw [if_neg (by omega), if_pos h]
    simp

/-- Witness for C5 at a user whose 3rd late return this is: the
restriction end lands at `100 + 30`; and a user on their 2nd late return
gets the warning. -/
theorem late_return_threshold_witness :
    (apply_late_return_penalty 100 ⟨7, .newcomer, 2, none⟩ rPicked).user.borrowing_restricted_until
      = some (100 + 30) ∧
    Notif.restrictionWarning 7 ∈ (apply_late_return_penalty 100 ⟨7, .newcomer, 1, none⟩ rPicked).notifs :=
  ⟨(late_return_threshold 100 ⟨7, .newcomer, 2, none⟩ rPicked).1 (by decide),
   (late_return_threshold 100 ⟨7, .newcomer, 1, none⟩ rPicked).2.2 (by decide)⟩

/-- C7: reservation creation is rejected with the restriction error
exactly when the user's `borrowing_restricted_until` is non-null and
strictly in the future; any rejected creation leaves the item unchanged;
and for unrestricted users passing the quantity and date checks the
creation succeeds, decrementing `quantity_available`. -/
theorem restriction_gate (now today : Int) (u : User) (i : InventoryItem)
    (inp : CreateInput) :
    ((∃ e, (reservationCreate now today u i inp).1 = .error e ∧ e.isRestriction = true)
        ↔ ∃ t, u.borrowing_restricted_until = some t ∧ now < t) ∧
    (∀ e, (reservationCreate now today u i inp).1 = .error e →
        (reservationCreate now today u i inp).2 = i) ∧
    (isRestricted now u = false →
      inp.quantity ≤ i.quantity_available →
      today ≤ inp.pickup_date →
      inp.pickup_date < inp.expected_return_date →
      ∃ r, reservationCreate now today u i inp
        = (.ok r, { i with quantity_available := i.quantity_available - inp.quantity })) := by
  refine ⟨?_, ?_, ?_⟩
  · rw [← isRestricted_iff]
    constructor
    · rintro ⟨e, he, hres⟩
      exact validate_isRestriction now today u i inp e
        ((reservationCreate_fst_error now today u i inp e).mp he) hres
    · intro hR
      exact ⟨_, (reservationCreate_fst_error now today u i inp _).mpr
        (validate_restricted now today u i inp hR), rfl⟩
  · intro e he
    unfold reservationCreate at he ⊢
    cases hv : reservationValidate now today u i inp <;> simp [hv] at he ⊢
  · intro h1 h2 h3 h4
    have hv : reservationValidate now today u i inp = none := by
      unfold reservationValidate
      rw [if_neg (by simp [h1]), if_neg (by omega), if_neg (by omega), if_neg (by omega)]
    refine ⟨{ user := u.id, hub := inp.hub, quantity := inp.quantity, status := .confirmed,
              pickup_date := inp.pickup_date,
              expected_return_date := inp.expected_return_date,
              actual_return_date := none, extension_requested := false,
              extension_approved := false }, ?_⟩
    unfold reservationCreate
    rw [hv]

/-- Witness for C7: a user restricted until time 10 is rejected at time 5
with the restriction error, and an unrestricted user's request on 2 of 5
available units succeeds. -/
theorem restriction_gate_witness :
    (∃ e, (reservationCreate 5 0 ⟨7, .newcomer, 3, some 10⟩ itemA ⟨1, 2, 0, 5⟩).1 = .error e
        ∧ e.isRestriction = true) ∧
    (∃ r, reservationCreate 0 0 uNew itemA ⟨1, 2, 0, 5⟩
        = (.ok r, { itemA with quantity_available := itemA.quantity_available - 2 })) :=
  ⟨(restriction_gate 5 0 ⟨7, .newcomer, 3, some 10⟩ itemA ⟨1, 2, 0, 5⟩).1.mpr
      ⟨10, rfl, by decide⟩,
   (restriction_gate 0 0 uNew itemA ⟨1, 2, 0, 5⟩).2.2 (by decide) (by decide) (by decide) (by decide)⟩

/-- C8: once a reservation is in `overdue`, a run of the overdue job does
not perform another status transition, and no run of the job ever touches
the item's stock counts. -/
theorem overdue_escalation_idempotent (today : Int) (r : Reservation)
    (i : InventoryItem) :
    (r.status = .overdue →
      (overdueStep today r i).reservation.status = .overdue ∧
      (overdueStep today r i).statusUpdated = false) ∧
    (overdueStep today r i).item = i := by
  unfold overdueStep
  constructor
  · intro h
    split
    · simp [h]
    · simp [h]
  · split <;> rfl

/-- Witness for C8 on a concrete already-overdue reservation: no
re-transition and the item untouched. -/
theorem overdue_escalation_idempotent_witness :
    ((overdueStep 10 rOverdue itemA).reservation.status = .overdue ∧
      (overdueStep 10 rOverdue itemA).statusUpdated = false) ∧
    (overdueStep 10 rOverdue itemA).item = itemA :=
  ⟨(overdue_escalation_idempotent 10 rOverdue itemA).1 rfl,
   (overdue_escalation_idempotent 10 rOverdue itemA).2⟩

/-- C10: any caller the queryset exposes the reservation to — which
includes the reserving borrower, since non-steward, non-admin callers see
their own reservations — can approve a requested extension: the call
succeeds with no role check, no status precondition and no validation of
the new date, setting `extension_approved` and overwriting
`expected_return_date` with the supplied value. -/
theorem extension_approval_ungated (caller : User) (stewardHubs : List Nat)
    (r : Reservation) (d : Int)
    (hacc : canAccessReservation caller stewardHubs r = true)
    (hreq : r.extension_requested = true) :
    approve_extension caller stewardHubs r (some d)
      = .ok { r with extension_approved := true, expected_return_date := d } ∧
    ∀ borrower : User, borrower.id = r.user →
      borrower.role ≠ .admin → borrower.role ≠ .steward →
      canAccessReservation borrower stewardHubs r = true := by
  constructor
  · unfold approve_extension
    rw [if_neg (by simp [hacc]), if_neg (by simp [hreq])]
  · intro b hid hadm hstw
    unfold canAccessReservation
    cases hrole : b.role <;> simp_all

/-- Witness for C10: the borrower themself (a plain `newcomer`), on their
own picked-up reservation with a requested extension, successfully
approves it — with a new date earlier than the old one. -/
theorem extension_approval_ungated_witness :
    approve_extension ⟨7, .newcomer, 0, none⟩ []
        ⟨7, 1, 2, .picked_up, 0, 5, none, true, false⟩ (some 1)
      = .ok { (⟨7, 1, 2, .picked_up, 0, 5, none, true, false⟩ : Reservation) with
              extension_approved := true, expected_return_date := 1 } :=
  (extension_approval_ungated ⟨7, .newcomer, 0, none⟩ []
      ⟨7, 1, 2, .picked_up, 0, 5, none, true, false⟩ 1 (by decide) rfl).1

/-- C6: for a picked-up (or already overdue) reservation with no actual
return date that is `N = today - expected_return_date ≥ 1` days past due,
the overdue job sends the user a reminder exactly when `N ∈ {1, 3, 7}` or
`N` is a positive multiple of 7, and alerts the hub's stewards exactly
when a reminder is sent and `N ≥ 3`. -/
theorem overdue_escalation_cadence (today : Int) (r : Reservation)
    (i : InventoryItem)
    (hstat : r.status = .picked_up ∨ r.status = .overdue)
    (hret : r.actual_return_date = none)
    (hover : r.expected_return_date < today) :
    ((overdueStep today r i).userReminder = true ↔
      (today - r.expected_return_date = 1 ∨ today - r.expected_return_date = 3 ∨
       today - r.expected_return_date = 7 ∨
       (0 < today - r.expected_return_date ∧ 7 ∣ today - r.expected_return_date))) ∧
    ((overdueStep today r i).stewardAlert = true ↔
      ((overdueStep today r i).userReminder = true ∧
       3 ≤ today - r.expected_return_date)) := by
  have hcand : overdueCandidate today r = true := by
    unfold overdueCandidate
    rcases hstat with h | h <;> simp [h, hret, hover]
  unfold overdueStep
  rw [if_pos hcand]
  constructor
  · exact shouldSendReminder_iff (today - r.expected_return_date) (by omega)
  · simp [ge_iff_le]

/-- Witness for C6 at 14 days overdue: reminder and steward alert both
fire (14 is a positive multiple of 7 and `≥ 3`). -/
theorem overdue_escalation_cadence_witness :
    (overdueStep 14 rOverdue itemA).userReminder = true ∧
    (overdueStep 14 rOverdue itemA).stewardAlert = true :=
  ⟨(overdue_escalation_cadence 14 rOverdue itemA (Or.inr rfl) rfl (by decide)).1.mpr
      (Or.inr (Or.inr (Or.inr ⟨by decide, by decide⟩))),
   (overdue_escalation_cadence 14 rOverdue itemA (Or.inr rfl) rfl (by decide)).2.mpr
      ⟨(overdue_escalation_cadence 14 rOverdue itemA (Or.inr rfl) rfl (by decide)).1.mpr
          (Or.inr (Or.inr (Or.inr ⟨by decide, by decide⟩))), by decide⟩⟩

/-- C3 counterexample: a `confirmed` reservation whose pickup date (day
0) is strictly before today (day 5) is NOT expired by the job — the
queryset selects only `pending` — contradicting the claim that one run
sets its status to `cancelled` and releases the stock. -/
theorem expire_skips_confirmed_cex :
    (⟨7, 1, 2, .confirmed, 0, 5, none, false, false⟩ : Reservation).status = .confirmed ∧
    (⟨7, 1, 2, .confirmed, 0, 5, none, false, false⟩ : Reservation).pickup_date < 5 ∧
    (expireStep 5 ⟨7, 1, 2, .confirmed, 0, 5, none, false, false⟩ itemA).reservation.status
      ≠ .cancelled ∧
    (expireStep 5 ⟨7, 1, 2, .confirmed, 0, 5, none, false, false⟩ itemA).item = itemA ∧
    (expireStep 5 ⟨7, 1, 2, .confirmed, 0, 5, none, false, false⟩ itemA).notifs = [] := by
  decide

/-- C3 (amended): one run of the expiration job cancels exactly the
`pending` reservations whose `pickup_date` is strictly before today,
releasing the held quantity back to `quantity_available` and notifying
the user; every other reservation (including `confirmed` ones with a past
pickup date) is left unchanged. -/
theorem expire_pending_only (today : Int) (r : Reservation) (i : InventoryItem) :
    (r.status = .pending → r.pickup_date < today →
      (expireStep today r i).reservation.status = .cancelled ∧
      (expireStep today r i).item.quantity_available
        = i.quantity_available + r.quantity ∧
      (expireStep today r i).notifs = [Notif.reservationExpired r.user]) ∧
    (¬(r.status = .pending ∧ r.pickup_date < today) →
      (expireStep today r i).reservation = r ∧
      (expireStep today r i).item = i ∧
      (expireStep today r i).notifs = []) := by
  unfold expireStep
  constructor
  · intro h1 h2
    rw [if_pos ⟨h1, h2⟩]
    exact ⟨rfl, rfl, rfl⟩
  · intro h
    rw [if_neg h]
    exact ⟨rfl, rfl, rfl⟩

/-- Witness for C3 (amended): a pending reservation of 2 units past its
pickup date is cancelled with the stock released, while the confirmed
twin is untouched. -/
theorem expire_pending_only_witness :
    ((expireStep 5 ⟨7, 1, 2, .pending, 0, 5, none, false, false⟩ itemA).reservation.status
        = .cancelled ∧
      (expireStep 5 ⟨7, 1, 2, .pending, 0, 5, none, false, false⟩ itemA).item.quantity_available
        = itemA.quantity_available + 2 ∧
      (expireStep 5 ⟨7, 1, 2, .pending, 0, 5, none, false, false⟩ itemA).notifs
        = [Notif.reservationExpired 7]) ∧
    (expireStep 5 rPicked itemA).reservation = rPicked :=
  ⟨(expire_pending_only 5 ⟨7, 1, 2, .pending, 0, 5, none, false, false⟩ itemA).1 rfl (by decide),
   ((expire_pending_only 5 rPicked itemA).2 (by decide)).1⟩

/-- C9 counterexample: cancelling a pending 1-unit transfer on an item
already at `quantity_available = quantity_total = 5` pushes
`quantity_available` to 6 — there is no defensive clamp, contradicting
the claim that a release is capped by `quantity_total`. -/
theorem release_not_capped_cex :
    cancel_transfer ⟨1, 2, 1, .pending⟩ itemA
      = .ok (⟨1, 2, 1, .cancelled⟩, ⟨1, "drill", "tools", 5, 6⟩) ∧
    I1 itemA ∧
    ¬ I1 ⟨1, "drill", "tools", 5, 6⟩ :=
  ⟨rfl, by decide, by decide⟩

/-- C9 (amended): every release of reserved stock (return, reservation
cancel, reservation expiry, transfer cancellation) increments the item's
`quantity_available` by the released quantity unconditionally — no cap is
applied, so an overshooting caller drives `quantity_available` above
`quantity_total`. -/
theorem release_uncapped (now today : Int) (r : Reservation)
    (i : InventoryItem) (u : User) (t : Transfer) :
    (∀ res, return_item now today r i u = .ok res →
        res.item.quantity_available = i.quantity_available + r.quantity) ∧
    (∀ caller out, cancelRes caller r i = .ok out →
        out.2.quantity_available = i.quantity_available + r.quantity) ∧
    (r.status = .pending → r.pickup_date < today →
        (expireStep today r i).item.quantity_available
          = i.quantity_available + r.quantity) ∧
    (∀ out, cancel_transfer t i = .ok out →
        out.2.quantity_available = i.quantity_available + t.quantity) := by
  refine ⟨?_, ?_, ?_, ?_⟩
  · intro res h
    simp only [return_item] at h
    split at h
    · simp at h
    · split at h <;> (cases h; rfl)
  · intro caller out h
    unfold cancelRes at h
    split at h
    · simp at h
    · split at h
      · simp at h
      · cases h; rfl
  · intro h1 h2
    unfold expireStep
    rw [if_pos ⟨h1, h2⟩]
  · intro out h
    unfold cancel_transfer at h
    split at h
    · simp at h
    · split at h
      · simp at h
      · cases h; rfl

/-- Witness for C9 (amended): returning a picked-up reservation of 2
units on an item with 3 available yields exactly 5 available. -/
theorem release_uncapped_witness :
    (⟨{ rPicked with status := .returned, actual_return_date := some 3 },
       ⟨1, "drill", "tools", 5, 5⟩, uNew, []⟩ : ReturnResult).item.quantity_available
      = (⟨1, "drill", "tools", 5, 3⟩ : InventoryItem).quantity_available + rPicked.quantity :=
  (release_uncapped 0 3 rPicked ⟨1, "drill", "tools", 5, 3⟩ uNew
      ⟨1, 2, 1, .pending⟩).1
    ⟨{ rPicked with status := .returned, actual_return_date := some 3 },
     ⟨1, "drill", "tools", 5, 5⟩, uNew, []⟩ rfl

/-- C1: after `initiate_transfer` of quantity Q, the sequence
`approve_transfer` then `complete_transfer` leaves the sum of
`quantity_total` over the source item and the (found-or-created)
destination item equal to its pre-initiation value; and `cancel_transfer`
— with or without an intervening approval — restores the source item's
`quantity_available` to its pre-initiation value. -/
theorem transfer_conservation (src : InventoryItem) (dest : Option InventoryItem)
    (from_hub to_hub : Nat) (q : Int) (t : Transfer) (src1 : InventoryItem)
    (h1 : initiate_transfer src from_hub to_hub q = .ok (t, src1)) :
    (∀ t2, approve_transfer t = .ok t2 →
      (∀ out, complete_transfer t2 src1 dest = .ok out →
        out.2.1.quantity_total + out.2.2.quantity_total
          = src.quantity_total + destTotal dest) ∧
      (∀ out, cancel_transfer t2 src1 = .ok out →
        out.2.quantity_available = src.quantity_available)) ∧
    (∀ out, cancel_transfer t src1 = .ok out →
      out.2.quantity_available = src.quantity_available) := by
  unfold initiate_transfer at h1
  split at h1; · simp at h1
  split at h1; · simp at h1
  split at h1; · simp at h1
  split at h1; · simp at h1
  injection h1 with hp
  injection hp with ht hs
  subst ht
  subst hs
  constructor
  · intro t2 h2
    unfold approve_transfer at h2
    split at h2
    · simp at h2
    · injection h2 with ht2
      subst ht2
      constructor
      · intro out h3
        unfold complete_transfer at h3
        split at h3
        · simp at h3
        · injection h3 with hout
          subst hout
          cases dest with
          | none => simp [destTotal]
          | some d => simp [destTotal]
      · intro out h4
        unfold cancel_transfer at h4
        split at h4
        · simp at h4
        · split at h4
          · simp at h4
          · injection h4 with hout
            subst hout
            simp
  · intro out h4
    unfold cancel_transfer at h4
    split at h4
    · simp at h4
    · split at h4
      · simp at h4
      · injection h4 with hout
        subst hout
        simp

/-- Witness for C1 on a 2-unit transfer out of a 5/5 item, with no
pre-existing destination item: the completed pair sums to the original
total, and cancellation restores availability. -/
theorem transfer_conservation_witness :
    ((⟨1, "drill", "tools", 3, 3⟩ : InventoryItem).quantity_total
        + (⟨2, "drill", "tools", 2, 2⟩ : InventoryItem).quantity_total
      = itemA.quantity_total + destTotal none) ∧
    ((⟨1, "drill", "tools", 5, 5⟩ : InventoryItem).quantity_available
      = itemA.quantity_available) :=
  ⟨((transfer_conservation itemA none 1 2 2 ⟨1, 2, 2, .pending⟩
        ⟨1, "drill", "tools", 5, 3⟩ rfl).1 ⟨1, 2, 2, .in_transit⟩ rfl).1
      (⟨1, 2, 2, .completed⟩, ⟨1, "drill", "tools", 3, 3⟩, ⟨2, "drill", "tools", 2, 2⟩) rfl,
   (transfer_conservation itemA none 1 2 2 ⟨1, 2, 2, .pending⟩
        ⟨1, "drill", "tools", 5, 3⟩ rfl).2
      (⟨1, 2, 2, .cancelled⟩, ⟨1, "drill", "tools", 5, 5⟩) rfl⟩

/-- C4: creating a reservation (validation passing), picking it up and
returning it on time leaves the item's `quantity_available` exactly as it
was before creation; creating then cancelling likewise restores it. -/
theorem reservation_round_trip (now today : Int) (u : User)
    (item : InventoryItem) (inp : CreateInput) (r : Reservation)
    (item1 : InventoryItem)
    (hc : reservationCreate now today u item inp = (.ok r, item1)) :
    (∀ r2, pickupRes r = .ok r2 →
      ∀ now2 today2 u2 res, today2 ≤ r2.expected_return_date →
        return_item now2 today2 r2 item1 u2 = .ok res →
        res.item.quantity_available = item.quantity_available) ∧
    (∀ caller out, cancelRes caller r item1 = .ok out →
      out.2.quantity_available = item.quantity_available) := by
  unfold reservationCreate at hc
  cases hv : reservationValidate now today u item inp with
  | some e => rw [hv] at hc; injection hc with h1 h2; simp at h1
  | none =>
      rw [hv] at hc
      injection hc with h1 h2
      injection h1 with hr
      subst hr
      subst h2
      constructor
      · intro r2 h2 now2 today2 u2 res _ h3
        unfold pickupRes at h2
        split at h2
        · simp at h2
        · injection h2 with hr2
          subst hr2
          simp only [return_item] at h3
          split at h3
          · simp at h3
          · split at h3 <;> (cases h3; simp)
      · intro caller out h4
        unfold cancelRes at h4
        split at h4
        · simp at h4
        · split at h4
          · simp at h4
          · injection h4 with hout
            subst hout
            simp

/-- Witness for C4: the full create → pickup → on-time return cycle on a
5/5 item ends with 5 available, as does create → cancel. -/
theorem reservation_round_trip_witness :
    ((⟨⟨7, 1, 2, .returned, 0, 5, some 3, false, false⟩,
        ⟨1, "drill", "tools", 5, 5⟩, uNew, []⟩ : ReturnResult).item.quantity_available
      = itemA.quantity_available) ∧
    (((⟨7, 1, 2, .cancelled, 0, 5, none, false, false⟩ : Reservation),
        (⟨1, "drill", "tools", 5, 5⟩ : InventoryItem)).2.quantity_available
      = itemA.quantity_available) :=
  ⟨(reservation_round_trip 0 0 uNew itemA ⟨1, 2, 0, 5⟩
        ⟨7, 1, 2, .confirmed, 0, 5, none, false, false⟩
        ⟨1, "drill", "tools", 5, 3⟩ rfl).1
      ⟨7, 1, 2, .picked_up, 0, 5, none, false, false⟩ rfl 0 3 uNew
      ⟨⟨7, 1, 2, .returned, 0, 5, some 3, false, false⟩,
        ⟨1, "drill", "tools", 5, 5⟩, uNew, []⟩ (by decide) rfl,
   (reservation_round_trip 0 0 uNew itemA ⟨1, 2, 0, 5⟩
        ⟨7, 1, 2, .confirmed, 0, 5, none, false, false⟩
        ⟨1, "drill", "tools", 5, 3⟩ rfl).2 uNew
      (⟨7, 1, 2, .cancelled, 0, 5, none, false, false⟩,
        ⟨1, "drill", "tools", 5, 5⟩) rfl⟩

/-- Unfolding I1 on an availability update. -/
theorem I1_update_avail (i : InventoryItem) (v : Int) :
    I1 { i with quantity_available := v } ↔ (0 ≤ v ∧ v ≤ i.quantity_total) :=
  Iff.rfl

/-- Unfolding I1 on a total update. -/
theorem I1_update_total (i : InventoryItem) (v : Int) :
    I1 { i with quantity_total := v } ↔
      (0 ≤ i.quantity_available ∧ i.quantity_available ≤ v) :=
  Iff.rfl

/-- Unfolding I1 on a simultaneous update of both stock fields. -/
theorem I1_update_both (i : InventoryItem) (vt va : Int) :
    I1 { i with quantity_total := vt, quantity_available := va } ↔
      (0 ≤ va ∧ va ≤ vt) :=
  Iff.rfl

/-- Unfolding I1 on a literal item. -/
theorem I1_mk (h : Nat) (n c : String) (qt qa : Int) :
    I1 ⟨h, n, c, qt, qa⟩ ↔ (0 ≤ qa ∧ qa ≤ qt) :=
  Iff.rfl

/-- A `none` result of validation implies the stock check passed. -/
theorem validate_none_quantity (now today : Int) (u : User)
    (i : InventoryItem) (inp : CreateInput)
    (hv : reservationValidate now today u i inp = none) :
    inp.quantity ≤ i.quantity_available := by
  unfold reservationValidate at hv
  split at hv
  · simp at hv
  · split at hv
    · simp at hv
    · omega

/-- The overdue job's loop body never touches the inventory item. -/
theorem overdueStep_item_eq (today : Int) (r : Reservation) (i : InventoryItem) :
    (overdueStep today r i).item = i := by
  unfold overdueStep
  split <;> rfl

/-- C2 counterexample: the claim fails as stated.  From the I1 state
`quantity_total = quantity_available = 5`, returning a picked-up
reservation of 2 units — whose only validation is the status check —
drives `quantity_available` to 7 > 5, violating I1. -/
theorem stock_bounds_cex :
    I1 itemA ∧
    return_item 0 0 rPicked itemA uNew
      = .ok ⟨⟨7, 1, 2, .returned, 0, 5, some 0, false, false⟩,
             ⟨1, "drill", "tools", 5, 7⟩, uNew, []⟩ ∧
    ¬ I1 ⟨1, "drill", "tools", 5, 7⟩ :=
  ⟨by decide, rfl, by decide⟩

/-- C2 (amended): every engine operation preserves I1
(`0 ≤ quantity_available ≤ quantity_total`) from an I1 state passing the
operation's own validation, provided additionally that the quantity
involved is nonnegative (the data model requires `quantity ≥ 1`) and
that, for the stock-releasing operations (return, reservation cancel,
expiry, transfer cancel) and for transfer completion at the source, the
released quantity is genuinely held:
`quantity_available + quantity ≤ quantity_total`.  The code performs no
clamping, so without the held-stock premise the releases violate I1. -/
theorem stock_bounds_preserved (i : InventoryItem) (hI : I1 i) :
    (∀ now today u inp r i1, 0 ≤ inp.quantity →
        reservationCreate now today u i inp = (.ok r, i1) → I1 i1) ∧
    (∀ r r1, pickupRes r = .ok r1 → I1 i) ∧
    (∀ now today r u res, 0 ≤ r.quantity →
        i.quantity_available + r.quantity ≤ i.quantity_total →
        return_item now today r i u = .ok res → I1 res.item) ∧
    (∀ caller r out, 0 ≤ r.quantity →
        i.quantity_available + r.quantity ≤ i.quantity_total →
        cancelRes caller r i = .ok out → I1 out.2) ∧
    (∀ today r, 0 ≤ r.quantity →
        i.quantity_available + r.quantity ≤ i.quantity_total →
        I1 (expireStep today r i).item) ∧
    (∀ today r, I1 (overdueStep today r i).item) ∧
    (∀ fh th q t i1, initiate_transfer i fh th q = .ok (t, i1) → I1 i1) ∧
    (∀ t t1, approve_transfer t = .ok t1 → I1 i) ∧
    (∀ t dest out, 0 < t.quantity →
        i.quantity_available + t.quantity ≤ i.quantity_total →
        (∀ d, dest = some d → I1 d) →
        complete_transfer t i dest = .ok out → I1 out.2.1 ∧ I1 out.2.2) ∧
    (∀ t out, 0 ≤ t.quantity →
        i.quantity_available + t.quantity ≤ i.quantity_total →
        cancel_transfer t i = .ok out → I1 out.2) := by
  obtain ⟨hIa, hIb⟩ := hI
  refine ⟨?_, ?_, ?_, ?_, ?_, ?_, ?_, ?_, ?_, ?_⟩
  · intro now today u inp r i1 hq hc
    unfold reservationCreate at hc
    cases hv : reservationValidate now today u i inp with
    | some e => rw [hv] at hc; injection hc with h1 _; simp at h1
    | none =>
        have hle := validate_none_quantity now today u i inp hv
        rw [hv] at hc
        injection hc with _ h2
        subst h2
        rw [I1_update_avail]
        omega
  · exact fun _ _ _ => ⟨hIa, hIb⟩
  · intro now today r u res hq hheld h
    simp only [return_item] at h
    split at h
    · simp at h
    · split at h <;> (cases h; rw [I1_update_avail]; omega)
  · intro caller r out hq hheld h
    unfold cancelRes at h
    split at h
    · simp at h
    · split at h
      · simp at h
      · cases h; rw [I1_update_avail]; omega
  · intro today r hq hheld
    unfold expireStep
    split
    · rw [show (⟨_, { i with quantity_available := i.quantity_available + r.quantity },
          _⟩ : ExpireResult).item
            = { i with quantity_available := i.quantity_available + r.quantity } from rfl,
        I1_update_avail]
      omega
    · exact ⟨hIa, hIb⟩
  · intro today r
    rw [overdueStep_item_eq]
    exact ⟨hIa, hIb⟩
  · intro fh th q t i1 h
    unfold initiate_transfer at h
    split at h; · simp at h
    split at h; · simp at h
    split at h; · simp at h
    split at h; · simp at h
    injection h with hp
    injection hp with _ hs
    subst hs
    rw [I1_update_avail]
    omega
  · exact fun _ _ _ => ⟨hIa, hIb⟩
  · intro t dest out hq hheld hdest h
    simp only [complete_transfer] at h
    split at h
    · simp at h
    · injection h with hout
      subst hout
      cases dest with
      | none =>
          exact ⟨(I1_update_total i _).mpr (by omega), (I1_mk _ _ _ _ _).mpr (by omega)⟩
      | some d =>
          obtain ⟨hda, hdb⟩ := hdest d rfl
          exact ⟨(I1_update_total i _).mpr (by omega),
                 (I1_update_both d _ _).mpr (by omega)⟩
  · intro t out hq hheld h
    unfold cancel_transfer at h
    split at h
    · simp at h
    · split at h
      · simp at h
      · cases h; rw [I1_update_avail]; omega

/-- Witness for C2 (amended): initiating a 2-unit transfer out of the
5/5 item preserves I1 at the source, and an on-time return of 2 units
onto a 5/3 item (held stock: 3 + 2 ≤ 5) preserves I1. -/
theorem stock_bounds_preserved_witness :
    I1 ⟨1, "drill", "tools", 5, 3⟩ ∧ I1 ⟨1, "drill", "tools", 5, 5⟩ :=
  ⟨(stock_bounds_preserved itemA (by decide)).2.2.2.2.2.2.1 1 2 2
      ⟨1, 2, 2, .pending⟩ ⟨1, "drill", "tools", 5, 3⟩ rfl,
   (stock_bounds_preserved ⟨1, "drill", "tools", 5, 3⟩ (by decide)).2.2.1 0 3 rPicked uNew
      ⟨⟨7, 1, 2, .returned, 0, 5, some 3, false, false⟩,
       ⟨1, "drill", "tools", 5, 5⟩, uNew, []⟩
      (by decide) (by decide) rfl⟩

end Flokr
